import Mathlib

set_option maxRecDepth 100000

/-!
Shallow embedding of the sales-dashboard backend (backend/server.js, the
cached variant of the file).  JavaScript objects used as string-keyed maps
are embedded as association lists in insertion order; string fields that the
code only tests for truthiness are embedded as plain strings where the empty
string plays the role of both the empty string and an absent value;
wall-clock timestamps are integers in milliseconds; monetary amounts are
rationals.  The two network effects, namely the OAuth credential exchange
and the order-search page requests, are passed in as explicit parameters of
the functions that perform them.
-/

namespace SalesDashboard

/-! Character-list models of the JavaScript string operations used by the
code.  They agree with the library operations on the strings involved and
are written over the character list of the string so that concrete witness
computations reduce inside the kernel. -/

/-- The trim operation: strip leading and trailing whitespace. -/
def jsTrim (s : String) : String :=
  String.mk (((s.data.dropWhile Char.isWhitespace).reverse.dropWhile
    Char.isWhitespace).reverse)

/-- The split operation on a one-character separator, keeping empty pieces,
exactly as the JavaScript split does. -/
def splitCharAux (c : Char) : List Char → List Char → List String
  | [], acc => [String.mk acc.reverse]
  | x :: xs, acc =>
    if x == c then String.mk acc.reverse :: splitCharAux c xs []
    else splitCharAux c xs (x :: acc)

/-- Split a string on a one-character separator. -/
def splitOnChar (c : Char) (s : String) : List String :=
  splitCharAux c s.data []

/-- The toUpperCase operation, on ASCII letters. -/
def jsToUpper (s : String) : String :=
  String.mk (s.data.map Char.toUpper)

/-- The toLowerCase operation, on ASCII letters. -/
def jsToLower (s : String) : String :=
  String.mk (s.data.map Char.toLower)

/-- The startsWith test. -/
def jsStartsWith (s pre : String) : Bool :=
  pre.data.isPrefixOf s.data

/-- Removal of the first n characters of a string. -/
def jsDrop (s : String) (n : Nat) : String :=
  String.mk (s.data.drop n)

/-- One line item of an order: a product_items entry carries a quantity. -/
structure ProductItem where
  quantity : Int
deriving DecidableEq

/-- One payment instrument: carries the payment_method_id. -/
structure PaymentInstrument where
  payment_method_id : String
deriving DecidableEq

/-- An order record as consumed by processOrderData.  A missing
payment_instruments array behaves exactly like an empty one in the code, so
it is embedded as a plain list. -/
structure Order where
  creation_date : String
  order_total : Rat
  product_items : List ProductItem
  guest : Bool
  payment_instruments : List PaymentInstrument
deriving DecidableEq

/-- A search hit wraps the order in a data field. -/
structure OrderHit where
  data : Order
deriving DecidableEq

/-- Per-day aggregate bucket of dailyMetrics. -/
structure DayMetrics where
  orders : Nat
  revenue : Rat
  units : Int
deriving DecidableEq

/-- The customerBreakdown object, fields in the order of the source literal. -/
structure CustomerBreakdown where
  new : Nat
  returning : Nat
  registered : Nat
  unregistered : Nat
deriving DecidableEq

/-- The kpis object returned by processOrderData. -/
structure Kpis where
  totalOrders : Nat
  totalRevenue : Rat
  totalUnits : Int
  avgOrderValue : Rat
  avgUnitsPerTransaction : Rat
deriving DecidableEq

/-- The full return value of processOrderData. -/
structure Aggregate where
  dailyMetrics : List (String × DayMetrics)
  customerBreakdown : CustomerBreakdown
  kpis : Kpis
deriving DecidableEq

/-- The predicate of the payment-method filter inside processOrderData: the
order has a first payment instrument and its payment_method_id equals the
selected payment method. -/
def matchesPayment (paymentMethod : String) (hit : OrderHit) : Bool :=
  match hit.data.payment_instruments with
  | [] => false
  | pi :: _ => pi.payment_method_id == paymentMethod

/-- The filtering step at the top of processOrderData: applied only when the
payment method is truthy and not blank. -/
def filteredHits (hits : List OrderHit) (paymentMethod : String) : List OrderHit :=
  if !(paymentMethod == "") && !(jsTrim paymentMethod == "") then
    hits.filter (matchesPayment paymentMethod)
  else hits

/-- The date key of a record: the part of creation_date before the first T,
as computed by split on T and taking element 0. -/
def dateOf (order : Order) : String :=
  ((splitOnChar (Char.ofNat 84) order.creation_date).headD "")

/-- Sum of line-item quantities of one order, as computed by reduce. -/
def orderUnits (order : Order) : Int :=
  order.product_items.foldl (fun s it => s + it.quantity) 0

/-- Update of the dailyMetrics object for one record: initialise the bucket
of the records date when absent, then add one order, the order total and the
unit count.  A fresh key is appended at the end, matching object insertion
order. -/
def dailyAdd (dm : List (String × DayMetrics)) (date : String) (revenue : Rat)
    (units : Int) : List (String × DayMetrics) :=
  match dm.lookup date with
  | some base =>
      dm.map (fun p =>
        if p.1 == date then
          (p.1, { orders := base.orders + 1, revenue := base.revenue + revenue,
                  units := base.units + units })
        else p)
  | none => dm ++ [(date, { orders := 1, revenue := revenue, units := units })]

/-- Accumulator of the forEach loop inside processOrderData. -/
structure FoldState where
  dailyMetrics : List (String × DayMetrics)
  breakdown : CustomerBreakdown
  revenue : Rat
  units : Int
deriving DecidableEq

/-- Body of the forEach loop inside processOrderData. -/
def processStep (acc : FoldState) (hit : OrderHit) : FoldState :=
  let order := hit.data
  let units := orderUnits order
  let cb := acc.breakdown
  { dailyMetrics := dailyAdd acc.dailyMetrics (dateOf order) order.order_total units
    breakdown :=
      if order.guest then
        { cb with new := cb.new + 1, unregistered := cb.unregistered + 1 }
      else
        { cb with returning := cb.returning + 1, registered := cb.registered + 1 }
    revenue := acc.revenue + order.order_total
    units := acc.units + units }

/-- processOrderData from the source: filter by payment method, aggregate
daily metrics, customer breakdown and totals in one pass, then compute the
KPIs with guarded averages. -/
def processOrderData (hits : List OrderHit) (paymentMethod : String) : Aggregate :=
  let fh := filteredHits hits paymentMethod
  let totalOrders := fh.length
  let r := fh.foldl processStep
    { dailyMetrics := [],
      breakdown := { new := 0, returning := 0, registered := 0, unregistered := 0 },
      revenue := 0, units := 0 }
  { dailyMetrics := r.dailyMetrics
    customerBreakdown := r.breakdown
    kpis :=
      { totalOrders := totalOrders
        totalRevenue := r.revenue
        totalUnits := r.units
        avgOrderValue := if totalOrders > 0 then r.revenue / (totalOrders : Rat) else 0
        avgUnitsPerTransaction :=
          if totalOrders > 0 then (r.units : Rat) / (totalOrders : Rat) else 0 } }

/-- generateCacheKey from the source: keys of the request data are sorted,
each key is rendered as key colon value with a falsy value rendered empty, the
renderings are joined with underscores and prefixed with the environment and
the two dates. -/
def generateCacheKey (startDate endDate : String) (requestData : List (String × String))
    (environment : String) : String :=
  let sortedKeys := List.insertionSort (fun a b => a ≤ b) (requestData.map Prod.fst)
  let filterValues := String.intercalate "_"
    (sortedKeys.map (fun k => k ++ ":" ++ ((requestData.lookup k).getD "")))
  "orders_" ++ environment ++ "_" ++ startDate ++ "_" ++ endDate ++ "_" ++ filterValues

/-- Truthiness of a JavaScript string value embedded as an optional string:
undefined, null and the empty string are falsy. -/
def jsTruthy : Option String → Bool
  | none => false
  | some s => !(s == "")

/-- One per-environment slot of the token cache. -/
structure TokenSlot where
  accessToken : Option String
  tokenExpiresAt : Option Int
deriving DecidableEq

/-- The guard of the cached-token fast path: a truthy access token, a truthy
expiry and a current time strictly before the expiry. -/
def slotValid (slot : TokenSlot) (now : Int) : Bool :=
  jsTruthy slot.accessToken &&
    (match slot.tokenExpiresAt with
     | none => false
     | some e => decide (now < e))

/-- Outcome of the OAuth credential exchange, abstracting the network call
made with the environment configuration. -/
inductive ExchangeResult where
  | ok (accessToken : String) (expiresIn : Int)
  | fail
deriving DecidableEq

/-- Errors thrown out of getAccessToken: either the TypeError raised by
reading a field of an undefined cache slot, or a thrown Error with a
message. -/
inductive JsError where
  | typeError
  | jsError (msg : String)
deriving DecidableEq

deriving instance DecidableEq for Except

/-- Result of one call of the slot-level part of getAccessToken: the value
returned or the error thrown, the slot state afterwards, and the number of
credential exchanges attempted. -/
structure TokenResult where
  result : Except JsError String
  slot : TokenSlot
  networkCalls : Nat
deriving DecidableEq

/-- The message of the token-acquisition error thrown by getAccessToken. -/
def tokenErrorMessage (cacheKey : String) : String :=
  "Could not retrieve access token for " ++ cacheKey ++ " environment."

/-- The body of getAccessToken once the per-environment slot has been
resolved: return the cached token when the slot is valid, otherwise perform
one credential exchange, caching the token with an expiry sixty seconds
early on success and throwing the acquisition error on failure. -/
def getAccessTokenSlot (slot : TokenSlot) (now : Int) (cacheKey : String)
    (exchange : ExchangeResult) : TokenResult :=
  if slotValid slot now then
    { result := Except.ok (slot.accessToken.getD ""), slot := slot, networkCalls := 0 }
  else
    match exchange with
    | ExchangeResult.ok tok expiresIn =>
        { result := Except.ok tok
          slot := { accessToken := some tok
                    tokenExpiresAt := some (now + (expiresIn - 60) * 1000) }
          networkCalls := 1 }
    | ExchangeResult.fail =>
        { result := Except.error (JsError.jsError (tokenErrorMessage cacheKey))
          slot := slot
          networkCalls := 1 }

/-- The token cache literal of the source: exactly the two slots DEV and
PRD, both initially empty. -/
def tokenCacheStart : List (String × TokenSlot) :=
  [("DEV", { accessToken := none, tokenExpiresAt := none }),
   ("PRD", { accessToken := none, tokenExpiresAt := none })]

/-- In-place update of the slot stored under an existing key. -/
def assocSet (cache : List (String × TokenSlot)) (k : String) (v : TokenSlot) :
    List (String × TokenSlot) :=
  cache.map (fun p => if p.1 == k then (p.1, v) else p)

/-- getAccessToken from the source: default the environment to DEV when
falsy, uppercase it, read the slot from the token cache — a read of a
missing slot raises a TypeError before any network activity — and then run
the slot-level logic. -/
def getAccessToken (cache : List (String × TokenSlot)) (environment : String)
    (now : Int) (exchange : ExchangeResult) :
    (Except JsError String) × List (String × TokenSlot) × Nat :=
  let env := if environment == "" then "DEV" else environment
  let cacheKey := jsToUpper env
  match cache.lookup cacheKey with
  | none => (Except.error JsError.typeError, cache, 0)
  | some slot =>
    let r := getAccessTokenSlot slot now cacheKey exchange
    (r.result, assocSet cache cacheKey r.slot, r.networkCalls)

/-- One term query object of the order-search payload. -/
structure TermQuery where
  fields : List String
  operator : String
  values : List String
deriving DecidableEq

/-- The fixed status-exclusion predicate always emitted first. -/
def statusQuery : TermQuery :=
  { fields := ["status"], operator := "not_in", values := ["created", "failed"] }

/-- The switch inside buildTermQueries mapping a configured field key to the
request property holding its value. -/
def requestValueFor (requestData : List (String × String)) (fieldKey : String) :
    Option String :=
  match fieldKey with
  | "order_type" => requestData.lookup "orderType"
  | "customer_type" => requestData.lookup "customerType"
  | "channel" => requestData.lookup "channel"
  | "region" => requestData.lookup "region"
  | "store_id" => requestData.lookup "storeId"
  | _ => requestData.lookup fieldKey

/-- The non-blank test of buildTermQueries: the value is truthy and its trim
is not the empty string. -/
def isNonBlank : Option String → Bool
  | none => false
  | some s => !(s == "") && !(jsTrim s == "")

/-- Loop body of buildTermQueries: push one equality predicate for the
configured field when its request value is non-blank. -/
def termStep (requestData : List (String × String)) (acc : List TermQuery)
    (p : String × String) : List TermQuery :=
  let v := requestValueFor requestData p.1
  if isNonBlank v then
    acc ++ [{ fields := [p.2], operator := "is", values := [v.getD ""] }]
  else acc

/-- buildTermQueries from the source, written exactly as the forEach push
loop: start from the status predicate and append one equality predicate per
configured field whose request value is non-blank. -/
def buildTermQueries (requestData : List (String × String))
    (configurableFields : List (String × String)) : List TermQuery :=
  configurableFields.foldl (termStep requestData) [statusQuery]

/-- Declarative form of the per-field emission used to state the claim about
buildTermQueries. -/
def fieldPredicate (requestData : List (String × String)) (p : String × String) :
    Option TermQuery :=
  let v := requestValueFor requestData p.1
  if isNonBlank v then
    some { fields := [p.2], operator := "is", values := [v.getD ""] }
  else none

/-- getFieldOptionsFromEnv from the source: read the VALUES variable of the
field, and when it is truthy and not blank, split it on commas, trim each
piece and drop the empty pieces. -/
def getFieldOptionsFromEnv (env : List (String × String)) (fieldKey : String) :
    List String :=
  let envKey := "TERM_QUERY_FIELD_" ++ jsToUpper fieldKey ++ "_VALUES"
  match env.lookup envKey with
  | some envValue =>
      if !(envValue == "") && !(jsTrim envValue == "") then
        ((splitOnChar (Char.ofNat 44) envValue).map jsTrim).filter (fun o => !(o == ""))
      else []
  | none => []

/-- getConfigurableTermQueryFields from the source: every environment entry
whose key starts with the field marker and whose value is truthy yields a
configured field, keyed by the lowercased remainder of the variable name. -/
def getConfigurableTermQueryFields (env : List (String × String)) :
    List (String × String) :=
  env.filterMap (fun p =>
    if jsStartsWith p.1 "TERM_QUERY_FIELD_" && !(p.2 == "") then
      some (jsToLower (jsDrop p.1 17), p.2)
    else none)

/-- The fixed label table of the fields endpoint. -/
def fieldLabels : List (String × String) :=
  [("order_type", "Order Type"), ("customer_type", "Customer Type"),
   ("channel", "Channel"), ("region", "Region"), ("store_id", "Store ID")]

/-- Capitalisation of one word, matching the regex replacement for
ASCII-letter words. -/
def capitalizeWord (s : String) : String :=
  match s.data with
  | [] => ""
  | c :: cs => String.mk (c.toUpper :: cs)

/-- The fallback label: underscores become spaces and each word is
capitalised. -/
def defaultLabel (fieldKey : String) : String :=
  String.intercalate " " ((splitOnChar (Char.ofNat 95) fieldKey).map capitalizeWord)

/-- The label chosen by the fields endpoint for one field key. -/
def labelFor (fieldKey : String) : String :=
  match fieldLabels.lookup fieldKey with
  | some l => l
  | none => defaultLabel fieldKey

/-- One advertised field of the fields endpoint response. -/
structure FieldInfo where
  apiField : String
  label : String
  options : List String
deriving DecidableEq

/-- The availableFields object built by the fields endpoint: one entry per
configured field having at least one dropdown option. -/
def availableFields (env : List (String × String)) : List (String × FieldInfo) :=
  (getConfigurableTermQueryFields env).filterMap (fun p =>
    let options := getFieldOptionsFromEnv env p.1
    if options.length > 0 then
      some (p.1, { apiField := p.2, label := labelFor p.1, options := options })
    else none)

/-- One page of the upstream order-search response. -/
structure PageResponse where
  hits : List OrderHit
  total : Nat
deriving DecidableEq

/-- The pagination do-while loop of the orders handler.  The upstream is a
map from a start offset to the page served there, with none meaning the
request throws.  The function is driven by a fuel bound on the number of
iterations; the first component is none when the fuel is exhausted before
the loop exits, and the second component counts the page requests issued. -/
def fetchLoop (upstream : Nat → Option PageResponse) :
    Nat → List OrderHit → Nat → (Option (Except Unit (List OrderHit))) × Nat
  | 0, _, _ => (none, 0)
  | fuel + 1, allHits, start =>
    match upstream start with
    | none => (some (Except.error ()), 1)
    | some resp =>
      let allHits2 := allHits ++ resp.hits
      let start2 := start + resp.hits.length
      if start2 < resp.total ∧ allHits2.length < resp.total then
        let r := fetchLoop upstream fuel allHits2 start2
        (r.1, r.2 + 1)
      else (some (Except.ok allHits2), 1)

/-- The mutable state of the server: the token cache and the response
cache. -/
structure ServerState where
  tokenCache : List (String × TokenSlot)
  orderCache : List (String × List OrderHit)
deriving DecidableEq

/-- The response of the orders handler, by status code. -/
inductive HandlerResponse where
  | badRequest
  | ok (hits : List OrderHit)
  | serverError
deriving DecidableEq

/-- Result of one completed run of the orders handler: the response, the
server state afterwards, the number of credential exchanges attempted and
the number of page requests issued. -/
structure HandlerResult where
  response : HandlerResponse
  state : ServerState
  tokenCalls : Nat
  pageCalls : Nat
deriving DecidableEq

/-- Read of a request-body property, with the empty string standing for an
absent property. -/
def bodyGet (body : List (String × String)) (k : String) : String :=
  (body.lookup k).getD ""

/-- The requestData object of the handler: the remaining filters with the
orderType property defaulted to Prepaid when absent; a present orderType,
even a blank one, is kept because the spread overwrites the default. -/
def mkRequestData (otherFilters : List (String × String)) : List (String × String) :=
  match otherFilters.lookup "orderType" with
  | some _ => otherFilters
  | none => ("orderType", "Prepaid") :: otherFilters

/-- Store of the response cache under a key, overwriting any entry for it. -/
def cacheSet (cache : List (String × List OrderHit)) (k : String)
    (v : List OrderHit) : List (String × List OrderHit) :=
  (k, v) :: cache.filter (fun p => !(p.1 == k))

/-- The environment selected by the handler: the body value, defaulted to
DEV when falsy. -/
def selectedEnvOf (body : List (String × String)) : String :=
  if bodyGet body "environment" == "" then "DEV" else bodyGet body "environment"

/-- The rest-spread of the body once startDate, endDate and environment are
removed. -/
def otherFiltersOf (body : List (String × String)) : List (String × String) :=
  body.filter (fun p =>
    !(p.1 == "startDate") && !(p.1 == "endDate") && !(p.1 == "environment"))

/-- The requestData object the handler builds from the body. -/
def requestDataOf (body : List (String × String)) : List (String × String) :=
  mkRequestData (otherFiltersOf body)

/-- The cache key the handler computes for the body. -/
def cacheKeyOf (body : List (String × String)) : String :=
  generateCacheKey (bodyGet body "startDate") (bodyGet body "endDate")
    (requestDataOf body) (selectedEnvOf body)

/-- The token-cache key the handler will hit inside getAccessToken. -/
def envKeyOf (body : List (String × String)) : String :=
  jsToUpper (selectedEnvOf body)

/-- No usable cached token under the key: either the slot is missing or its
guard fails. -/
def noValidToken (tc : List (String × TokenSlot)) (key : String) (now : Int) : Bool :=
  match tc.lookup key with
  | none => true
  | some slot => !(slotValid slot now)

/-- The POST /api/orders handler of the cached variant.  The search payload
sent upstream is abstracted into the upstream page map, and the credential
exchange into the exchange parameter.  The result is none when the
pagination loop exceeds its fuel, that is, when the handler would never
respond. -/
def handleOrders (st : ServerState) (body : List (String × String)) (now : Int)
    (exchange : ExchangeResult) (upstream : Nat → Option PageResponse)
    (fuel : Nat) : Option HandlerResult :=
  if bodyGet body "startDate" == "" || bodyGet body "endDate" == "" then
    some { response := HandlerResponse.badRequest, state := st,
           tokenCalls := 0, pageCalls := 0 }
  else
    match st.orderCache.lookup (cacheKeyOf body) with
    | some cached =>
        some { response := HandlerResponse.ok cached, state := st,
               tokenCalls := 0, pageCalls := 0 }
    | none =>
      match getAccessToken st.tokenCache (selectedEnvOf body) now exchange with
      | (Except.error _, tc2, calls) =>
          some { response := HandlerResponse.serverError
                 state := { tokenCache := tc2, orderCache := st.orderCache }
                 tokenCalls := calls, pageCalls := 0 }
      | (Except.ok _, tc2, calls) =>
          match fetchLoop upstream fuel [] 0 with
          | (none, _) => none
          | (some (Except.error _), n) =>
              some { response := HandlerResponse.serverError
                     state := { tokenCache := tc2, orderCache := st.orderCache }
                     tokenCalls := calls, pageCalls := n }
          | (some (Except.ok hits), n) =>
              some { response := HandlerResponse.ok hits
                     state := { tokenCache := tc2,
                                orderCache := cacheSet st.orderCache (cacheKeyOf body) hits }
                     tokenCalls := calls, pageCalls := n }

/-- The DELETE /api/cache/clear/:key handler: deletion count of the key,
then a 200 with deleted true or a 404 with deleted false. -/
def clearOneHandler (cache : List (String × List OrderHit)) (key : String) :
    (Bool × Nat) × List (String × List OrderHit) :=
  let deleted : Nat := if cache.any (fun p => p.1 == key) then 1 else 0
  let cache2 := cache.filter (fun p => !(p.1 == key))
  if deleted > 0 then ((true, 200), cache2) else ((false, 404), cache2)

/-- The DELETE /api/cache/clear handler: report the number of keys then
flush everything. -/
def clearAllHandler (cache : List (String × List OrderHit)) :
    Nat × List (String × List OrderHit) :=
  (cache.length, [])

/-! Helper lemmas about association-list lookup. -/

theorem lookup_eq_some_of_mem {β : Type} :
    ∀ (l : List (String × β)) (k : String) (v : β),
      (l.map Prod.fst).Nodup → (k, v) ∈ l → l.lookup k = some v := by
  intro l
  induction l with
  | nil => intro k v _ h; cases h
  | cons p t ih =>
    intro k v hnd hmem
    simp only [List.map_cons, List.nodup_cons] at hnd
    rcases List.mem_cons.mp hmem with h | h
    · cases h
      simp [List.lookup_cons]
    · have hk : ¬(k = p.1) := by
        intro he
        exact hnd.1 (he ▸ (List.mem_map.mpr ⟨(k, v), h, rfl⟩))
      rw [List.lookup_cons]
      simp only [beq_eq_false_iff_ne.mpr (by exact fun hh => hk hh)]
      exact ih k v hnd.2 h

theorem mem_of_lookup_eq_some {β : Type} :
    ∀ (l : List (String × β)) (k : String) (v : β), l.lookup k = some v → (k, v) ∈ l := by
  intro l
  induction l with
  | nil => intro k v h; simp [List.lookup] at h
  | cons p t ih =>
    intro k v h
    rw [List.lookup_cons] at h
    by_cases hk : k = p.1
    · subst hk
      simp at h
      subst h
      exact List.mem_cons_self _ _
    · simp only [beq_eq_false_iff_ne.mpr (by exact fun hh => hk hh)] at h
      exact List.mem_cons_of_mem _ (ih k v h)

theorem perm_lookup_eq {β : Type} (l1 l2 : List (String × β)) (hp : l1.Perm l2)
    (hnd : (l1.map Prod.fst).Nodup) : ∀ k, l1.lookup k = l2.lookup k := by
  have hnd2 : (l2.map Prod.fst).Nodup := ((hp.map Prod.fst).nodup_iff).mp hnd
  intro k
  cases h1 : l1.lookup k with
  | some v =>
    exact (lookup_eq_some_of_mem l2 k v hnd2
      (hp.mem_iff.mp (mem_of_lookup_eq_some l1 k v h1))).symm
  | none =>
    cases h2 : l2.lookup k with
    | none => rfl
    | some v =>
      exact absurd (lookup_eq_some_of_mem l1 k v hnd
        (hp.mem_iff.mpr (mem_of_lookup_eq_some l2 k v h2))) (by simp [h1])

/-- C2: generateCacheKey depends only on the environment, the two dates and
the set of field-value pairs: two request objects holding the same pairs in
different key orders produce the same cache key. -/
theorem c2_generateCacheKey_order_invariant
    (startDate endDate environment : String) (l1 l2 : List (String × String))
    (hp : l1.Perm l2) (hnd : (l1.map Prod.fst).Nodup) :
    generateCacheKey startDate endDate l1 environment
      = generateCacheKey startDate endDate l2 environment := by
  unfold generateCacheKey
  have hsorted : List.insertionSort (fun a b => a ≤ b) (l1.map Prod.fst)
      = List.insertionSort (fun a b => a ≤ b) (l2.map Prod.fst) :=
    List.eq_of_perm_of_sorted
      ((List.perm_insertionSort _ _).trans
        ((hp.map Prod.fst).trans (List.perm_insertionSort _ _).symm))
      (List.sorted_insertionSort _ _) (List.sorted_insertionSort _ _)
  have hlookup : ∀ k, l1.lookup k = l2.lookup k := perm_lookup_eq l1 l2 hp hnd
  rw [hsorted]
  have hmap : (List.insertionSort (fun a b => a ≤ b) (l2.map Prod.fst)).map
        (fun k => k ++ ":" ++ ((l1.lookup k).getD ""))
      = (List.insertionSort (fun a b => a ≤ b) (l2.map Prod.fst)).map
        (fun k => k ++ ":" ++ ((l2.lookup k).getD "")) :=
    List.map_congr_left (fun k _ => by rw [hlookup k])
  dsimp only
  rw [hmap]

/-- C2 witness: a concrete two-field request in both key orders. -/
theorem c2_generateCacheKey_order_invariant_witness :
    [("x", "1"), ("orderType", "Prepaid")].Perm [("orderType", "Prepaid"), ("x", "1")]
    ∧ (([("x", "1"), ("orderType", "Prepaid")] : List (String × String)).map
        Prod.fst).Nodup
    ∧ generateCacheKey "2025-01-01" "2025-01-31" [("x", "1"), ("orderType", "Prepaid")] "DEV"
      = generateCacheKey "2025-01-01" "2025-01-31" [("orderType", "Prepaid"), ("x", "1")] "DEV" :=
  ⟨by decide, by decide,
    c2_generateCacheKey_order_invariant "2025-01-01" "2025-01-31" "DEV"
      [("x", "1"), ("orderType", "Prepaid")] [("orderType", "Prepaid"), ("x", "1")]
      (by decide) (by decide)⟩

/-- C3: getAccessToken on the per-environment slot — a valid slot answers
with the cached token and no credential exchange; an invalid slot with a
successful exchange stores the token and sets the expiry to now plus the
declared lifetime minus sixty seconds; an invalid slot with a failed
exchange throws a single acquisition error whose message carries the
environment name, after exactly one exchange attempt. -/
theorem c3_getAccessToken_slot_behavior (slot : TokenSlot) (now : Int) (cacheKey : String) :
    (∀ t, slot.accessToken = some t → slotValid slot now = true →
      ∀ exchange, getAccessTokenSlot slot now cacheKey exchange
        = { result := Except.ok t, slot := slot, networkCalls := 0 })
    ∧ (∀ tok ei, slotValid slot now = false →
        getAccessTokenSlot slot now cacheKey (ExchangeResult.ok tok ei)
          = { result := Except.ok tok,
              slot := { accessToken := some tok,
                        tokenExpiresAt := some (now + (ei - 60) * 1000) },
              networkCalls := 1 })
    ∧ (slotValid slot now = false →
        getAccessTokenSlot slot now cacheKey ExchangeResult.fail
          = { result := Except.error (JsError.jsError (tokenErrorMessage cacheKey)),
              slot := slot, networkCalls := 1 }
          ∧ ∃ a b, tokenErrorMessage cacheKey = a ++ cacheKey ++ b) := by
  refine ⟨?_, ?_, ?_⟩
  · intro t ht hvalid exchange
    unfold getAccessTokenSlot
    rw [hvalid]
    simp [ht]
  · intro tok ei hinvalid
    unfold getAccessTokenSlot
    rw [hinvalid]
    simp
  · intro hinvalid
    refine ⟨?_, "Could not retrieve access token for ", " environment.", rfl⟩
    unfold getAccessTokenSlot
    rw [hinvalid]
    simp

/-- C3 witness: the three behaviors at concrete slots and times. -/
theorem c3_getAccessToken_slot_behavior_witness :
    getAccessTokenSlot ⟨some "tok", some 100⟩ 0 "DEV" ExchangeResult.fail
      = { result := Except.ok "tok", slot := ⟨some "tok", some 100⟩, networkCalls := 0 }
    ∧ getAccessTokenSlot ⟨none, none⟩ 0 "DEV" (ExchangeResult.ok "fresh" 1800)
      = { result := Except.ok "fresh",
          slot := { accessToken := some "fresh", tokenExpiresAt := some (0 + (1800 - 60) * 1000) },
          networkCalls := 1 }
    ∧ getAccessTokenSlot ⟨none, none⟩ 0 "PRD" ExchangeResult.fail
      = { result := Except.error (JsError.jsError (tokenErrorMessage "PRD")),
          slot := ⟨none, none⟩, networkCalls := 1 } :=
  ⟨(c3_getAccessToken_slot_behavior ⟨some "tok", some 100⟩ 0 "DEV").1 "tok" rfl (by decide)
      ExchangeResult.fail,
   (c3_getAccessToken_slot_behavior ⟨none, none⟩ 0 "DEV").2.1 "fresh" 1800 (by decide),
   ((c3_getAccessToken_slot_behavior ⟨none, none⟩ 0 "PRD").2.2 (by decide)).1⟩

/-- Accumulated customer-breakdown counts of the aggregation loop: each
guest record raises new and unregistered by one, each non-guest record
raises returning and registered by one. -/
theorem processStep_breakdown_counts (l : List OrderHit) :
    ∀ s : FoldState,
      (l.foldl processStep s).breakdown.new
          = s.breakdown.new + l.countP (fun h => h.data.guest)
      ∧ (l.foldl processStep s).breakdown.unregistered
          = s.breakdown.unregistered + l.countP (fun h => h.data.guest)
      ∧ (l.foldl processStep s).breakdown.returning
          = s.breakdown.returning + l.countP (fun h => !h.data.guest)
      ∧ (l.foldl processStep s).breakdown.registered
          = s.breakdown.registered + l.countP (fun h => !h.data.guest) := by
  induction l with
  | nil => intro s; simp
  | cons hit t ih =>
    intro s
    simp only [List.foldl_cons, List.countP_cons]
    obtain ⟨ih1, ih2, ih3, ih4⟩ := ih (processStep s hit)
    rw [ih1, ih2, ih3, ih4]
    cases hg : hit.data.guest with
    | true =>
      simp [processStep, hg]
      omega
    | false =>
      simp [processStep, hg]
      omega

/-- A guest sample order. -/
def guestOrder : Order :=
  { creation_date := "2025-01-01T10:00:00.000Z", order_total := 50,
    product_items := [{ quantity := 2 }], guest := true,
    payment_instruments := [{ payment_method_id := "COD" }] }

/-- A registered sample order. -/
def regOrder : Order :=
  { creation_date := "2025-01-02T10:00:00.000Z", order_total := 30,
    product_items := [{ quantity := 1 }], guest := false,
    payment_instruments := [] }

/-- The ten-record sample of the spec: four guest records, six others. -/
def sampleTen : List OrderHit :=
  List.replicate 4 { data := guestOrder } ++ List.replicate 6 { data := regOrder }

/-- C5: new and unregistered both count the guest records processed, and
returning and registered both count the non-guest records, as overlapping
tallies; on the ten-record sample with four guests the breakdown is four,
four, six, six. -/
theorem c5_customer_breakdown_overlapping :
    (∀ (hits : List OrderHit) (paymentMethod : String),
      (processOrderData hits paymentMethod).customerBreakdown.new
          = (filteredHits hits paymentMethod).countP (fun h => h.data.guest)
      ∧ (processOrderData hits paymentMethod).customerBreakdown.unregistered
          = (filteredHits hits paymentMethod).countP (fun h => h.data.guest)
      ∧ (processOrderData hits paymentMethod).customerBreakdown.returning
          = (filteredHits hits paymentMethod).countP (fun h => !h.data.guest)
      ∧ (processOrderData hits paymentMethod).customerBreakdown.registered
          = (filteredHits hits paymentMethod).countP (fun h => !h.data.guest))
    ∧ (processOrderData sampleTen "").customerBreakdown
        = { new := 4, returning := 6, registered := 6, unregistered := 4 } := by
  constructor
  · intro hits pm
    have h := processStep_breakdown_counts (filteredHits hits pm)
      { dailyMetrics := [],
        breakdown := { new := 0, returning := 0, registered := 0, unregistered := 0 },
        revenue := 0, units := 0 }
    unfold processOrderData
    dsimp only
    simpa using h
  · decide

/-- C7: when the aggregated order count is zero, both averages are exactly
zero and the guarded computation performs no division. -/
theorem c7_average_zero_when_no_orders (hits : List OrderHit) (paymentMethod : String)
    (h : (processOrderData hits paymentMethod).kpis.totalOrders = 0) :
    (processOrderData hits paymentMethod).kpis.avgOrderValue = 0
    ∧ (processOrderData hits paymentMethod).kpis.avgUnitsPerTransaction = 0 := by
  unfold processOrderData at h ⊢
  dsimp only at h ⊢
  simp [h]

/-- C7 witness: a payment-method filter matching none of the records. -/
theorem c7_average_zero_when_no_orders_witness :
    (processOrderData [{ data := regOrder }] "COD").kpis.totalOrders = 0
    ∧ (processOrderData [{ data := regOrder }] "COD").kpis.avgOrderValue = 0
    ∧ (processOrderData [{ data := regOrder }] "COD").kpis.avgUnitsPerTransaction = 0 :=
  ⟨by decide,
   (c7_average_zero_when_no_orders [{ data := regOrder }] "COD" (by decide)).1,
   (c7_average_zero_when_no_orders [{ data := regOrder }] "COD" (by decide)).2⟩

/-- The foldl form of buildTermQueries equals its filterMap form from any
starting accumulator. -/
theorem termStep_foldl_filterMap (requestData : List (String × String)) :
    ∀ (cf : List (String × String)) (acc : List TermQuery),
      cf.foldl (termStep requestData) acc
        = acc ++ cf.filterMap (fieldPredicate requestData) := by
  intro cf
  induction cf with
  | nil => intro acc; simp
  | cons p t ih =>
    intro acc
    simp only [List.foldl_cons, List.filterMap_cons]
    by_cases hv : isNonBlank (requestValueFor requestData p.1)
    · simp only [termStep, fieldPredicate, hv, if_true]
      rw [ih]
      simp
    · simp only [termStep, fieldPredicate, hv, Bool.false_eq_true, if_false]
      rw [ih]

/-- C6: buildTermQueries always emits the fixed status-exclusion predicate
first, followed by exactly one equality predicate, in configuration
enumeration order, for each configured field whose request value is
non-blank; the output is built only from the configured fields, so request
keys outside the configured set contribute nothing. -/
theorem c6_buildTermQueries_shape (requestData configurableFields : List (String × String)) :
    buildTermQueries requestData configurableFields
      = statusQuery :: configurableFields.filterMap (fieldPredicate requestData) := by
  unfold buildTermQueries
  rw [termStep_foldl_filterMap]
  rfl

/-- C8: the fields endpoint advertises exactly the configured fields that
carry a non-empty permitted-values list; a configured field whose values
list is absent or empty is omitted. -/
theorem c8_fields_endpoint_values_rule (env : List (String × String)) (fieldKey : String) :
    (∃ info, (fieldKey, info) ∈ availableFields env)
      ↔ ((∃ fieldName, (fieldKey, fieldName) ∈ getConfigurableTermQueryFields env)
          ∧ getFieldOptionsFromEnv env fieldKey ≠ []) := by
  constructor
  · rintro ⟨info, hmem⟩
    unfold availableFields at hmem
    rw [List.mem_filterMap] at hmem
    obtain ⟨p, hp, hg⟩ := hmem
    dsimp only at hg
    split at hg
    · rename_i hlen
      rw [Option.some_inj, Prod.mk.injEq] at hg
      obtain ⟨hk, _⟩ := hg
      subst hk
      exact ⟨⟨p.2, hp⟩, List.length_pos.mp hlen⟩
    · cases hg
  · rintro ⟨⟨fieldName, hmem⟩, hopts⟩
    refine ⟨{ apiField := fieldName, label := labelFor fieldKey,
              options := getFieldOptionsFromEnv env fieldKey }, ?_⟩
    unfold availableFields
    rw [List.mem_filterMap]
    refine ⟨(fieldKey, fieldName), hmem, ?_⟩
    dsimp only
    rw [if_pos (List.length_pos.mpr hopts)]

/-- A sample process environment: order type carries a values list, channel
does not. -/
def envSample : List (String × String) :=
  [("TERM_QUERY_FIELD_ORDER_TYPE", "c_smartOrderType"),
   ("TERM_QUERY_FIELD_ORDER_TYPE_VALUES", "Prepaid,Postpaid"),
   ("TERM_QUERY_FIELD_CHANNEL", "c_channel")]

/-- C8 witness: on the sample environment the order-type field is
advertised and the values-less channel field is omitted. -/
theorem c8_fields_endpoint_values_rule_witness :
    (∃ info, ("order_type", info) ∈ availableFields envSample)
    ∧ ¬(∃ info, ("channel", info) ∈ availableFields envSample) :=
  ⟨(c8_fields_endpoint_values_rule envSample "order_type").mpr
      ⟨⟨"c_smartOrderType", by decide⟩, by decide⟩,
   fun hex =>
     ((c8_fields_endpoint_values_rule envSample "channel").mp hex).2 (by decide)⟩

/-- Lookup misses exactly when no entry has the key. -/
theorem lookup_none_iff {β : Type} :
    ∀ (l : List (String × β)) (k : String),
      l.lookup k = none ↔ ∀ p ∈ l, ¬(k = p.1) := by
  intro l
  induction l with
  | nil => intro k; simp [List.lookup]
  | cons p t ih =>
    intro k
    rw [List.lookup_cons]
    by_cases hk : k = p.1
    · subst hk
      simp
    · have hb : (k == p.1) = false := beq_eq_false_iff_ne.mpr hk
      simp [hb, ih k, hk]

/-- Filtering away a key that a list does not contain leaves it unchanged. -/
theorem filter_ne_of_lookup_none {β : Type} (l : List (String × β)) (k : String)
    (h : l.lookup k = none) : l.filter (fun p => !(p.1 == k)) = l := by
  rw [List.filter_eq_self]
  intro p hp
  have hne := (lookup_none_iff l k).mp h p hp
  simp only [Bool.not_eq_true']
  exact beq_eq_false_iff_ne.mpr (fun he => hne he.symm)

/-- Filtering away one key does not change the lookup of any other key. -/
theorem lookup_filter_ne {β : Type} (key k2 : String) (h : ¬(k2 = key)) :
    ∀ l : List (String × β),
      (l.filter (fun p => !(p.1 == key))).lookup k2 = l.lookup k2 := by
  intro l
  induction l with
  | nil => rfl
  | cons p t ih =>
    obtain ⟨pk, pv⟩ := p
    by_cases hpk : pk = key
    · have hb : (pk == key) = true := beq_iff_eq.mpr hpk
      have hk2 : (k2 == pk) = false :=
        beq_eq_false_iff_ne.mpr (fun he => h (hpk ▸ he))
      simpa [List.filter_cons, hb, List.lookup_cons, hk2] using ih
    · have hb : (pk == key) = false := beq_eq_false_iff_ne.mpr hpk
      cases hk2 : (k2 == pk) with
      | true => simp [List.filter_cons, hb, List.lookup_cons, hk2]
      | false => simpa [List.filter_cons, hb, List.lookup_cons, hk2] using ih

/-- C9: deleting an absent cache key answers 404 with deleted false and
leaves the cache unchanged; clearing an empty cache reports zero removed
entries; deleting a present key answers 200 with deleted true, removes that
key and touches no other entry. -/
theorem c9_cache_clear_semantics :
    (∀ (cache : List (String × List OrderHit)) (key : String),
      cache.lookup key = none → clearOneHandler cache key = ((false, 404), cache))
    ∧ clearAllHandler [] = (0, [])
    ∧ (∀ (cache : List (String × List OrderHit)) (key : String) (v : List OrderHit),
        cache.lookup key = some v →
          (clearOneHandler cache key).1 = (true, 200)
          ∧ (clearOneHandler cache key).2.lookup key = none
          ∧ ∀ k2, ¬(k2 = key) →
              (clearOneHandler cache key).2.lookup k2 = cache.lookup k2) := by
  refine ⟨?_, rfl, ?_⟩
  · intro cache key h
    have hany : cache.any (fun p => p.1 == key) = false := by
      rw [List.any_eq_false]
      intro p hp
      simp only [Bool.not_eq_true]
      exact beq_eq_false_iff_ne.mpr
        (fun he => (lookup_none_iff cache key).mp h p hp he.symm)
    simp [clearOneHandler, hany, filter_ne_of_lookup_none cache key h]
  · intro cache key v h
    have hany : cache.any (fun p => p.1 == key) = true :=
      List.any_eq_true.mpr ⟨(key, v), mem_of_lookup_eq_some cache key v h, by simp⟩
    refine ⟨by simp [clearOneHandler, hany], ?_, ?_⟩
    · simp only [clearOneHandler, hany, if_pos rfl]
      rw [lookup_none_iff]
      intro p hp he
      have := (List.mem_filter.mp hp).2
      simp only [Bool.not_eq_true'] at this
      exact absurd (beq_iff_eq.mpr he.symm) (by simp [this])
    · intro k2 hk2
      simp only [clearOneHandler, hany, if_pos rfl]
      exact lookup_filter_ne key k2 hk2 cache

/-- C9 witness: a miss on a concrete cache, the empty flush, and a hit
removing exactly its own key. -/
theorem c9_cache_clear_semantics_witness :
    clearOneHandler [("k1", [])] "nope" = ((false, 404), [("k1", [])])
    ∧ clearAllHandler [] = (0, [])
    ∧ (clearOneHandler [("k1", []), ("k2", [])] "k1").1 = (true, 200)
    ∧ (clearOneHandler [("k1", []), ("k2", [])] "k1").2.lookup "k1" = none
    ∧ (clearOneHandler [("k1", []), ("k2", [])] "k1").2.lookup "k2"
        = ([("k1", []), ("k2", [])] : List (String × List OrderHit)).lookup "k2" :=
  ⟨c9_cache_clear_semantics.1 [("k1", [])] "nope" (by decide),
   c9_cache_clear_semantics.2.1,
   (c9_cache_clear_semantics.2.2 [("k1", []), ("k2", [])] "k1" [] (by decide)).1,
   (c9_cache_clear_semantics.2.2 [("k1", []), ("k2", [])] "k1" [] (by decide)).2.1,
   (c9_cache_clear_semantics.2.2 [("k1", []), ("k2", [])] "k1" [] (by decide)).2.2
     "k2" (by decide)⟩

/-- A minimal search hit used by the pagination scenarios. -/
def dummyHit : OrderHit := { data := regOrder }

/-- A consistent upstream holding 450 records served in pages of 200. -/
def upstream450 : Nat → Option PageResponse := fun start =>
  if start == 0 then some { hits := List.replicate 200 dummyHit, total := 450 }
  else if start == 200 then some { hits := List.replicate 200 dummyHit, total := 450 }
  else if start == 400 then some { hits := List.replicate 50 dummyHit, total := 450 }
  else some { hits := [], total := 450 }

/-- An inconsistent upstream: every page is empty while the reported total
stays at one. -/
def emptyPagesUpstream : Nat → Option PageResponse := fun _ =>
  some { hits := [], total := 1 }

/-- C1 counterexample: the first page carries zero records, yet the loop
issues a second request — and keeps issuing one per available iteration —
because its guard only compares the accumulated count with the reported
total; an empty page does not stop it.  The claim says at most one request
should be issued here. -/
theorem c1_pagination_counterexample :
    emptyPagesUpstream 0 = some { hits := [], total := 1 }
    ∧ (fetchLoop emptyPagesUpstream 2 [] 0).2 = 2
    ∧ (fetchLoop emptyPagesUpstream 5 [] 0).2 = 5
    ∧ (fetchLoop emptyPagesUpstream 5 [] 0).1 = none :=
  ⟨rfl, rfl, rfl, rfl⟩

/-- C1 amended: the pagination loop stops issuing page requests as soon as
the accumulated record count reaches the most recent server-reported total
— a zero-record page alone does not stop it — and against a consistent
upstream reporting total 450 in pages of 200 it issues exactly 3 requests
and returns all 450 records. -/
theorem c1_pagination_terminates_on_total :
    (∀ (upstream : Nat → Option PageResponse) (fuel : Nat) (acc : List OrderHit)
        (start : Nat) (resp : PageResponse),
      upstream start = some resp → start = acc.length →
      resp.total ≤ (acc ++ resp.hits).length →
      fetchLoop upstream (fuel + 1) acc start = (some (Except.ok (acc ++ resp.hits)), 1))
    ∧ fetchLoop upstream450 10 [] 0
        = (some (Except.ok (List.replicate 450 dummyHit)), 3) := by
  constructor
  · intro upstream fuel acc start resp hup hstart htot
    simp only [fetchLoop, hup]
    rw [if_neg]
    · intro hand
      have hlen : start + resp.hits.length = (acc ++ resp.hits).length := by
        rw [List.length_append, hstart]
      omega
  · rfl

/-- C1 witness: the loop applied at the final page of the 450-record
scenario stops after that single request. -/
theorem c1_pagination_terminates_on_total_witness :
    upstream450 400 = some { hits := List.replicate 50 dummyHit, total := 450 }
    ∧ (400 : Nat) = (List.replicate 400 dummyHit).length
    ∧ (450 : Nat) ≤ (List.replicate 400 dummyHit ++ List.replicate 50 dummyHit).length
    ∧ fetchLoop upstream450 1 (List.replicate 400 dummyHit) 400
        = (some (Except.ok (List.replicate 400 dummyHit ++ List.replicate 50 dummyHit)), 1) :=
  ⟨rfl, by simp, by simp,
   c1_pagination_terminates_on_total.1 upstream450 0 (List.replicate 400 dummyHit) 400
     { hits := List.replicate 50 dummyHit, total := 450 } rfl (by simp) (by simp)⟩

/-- The selected environment is never the empty string. -/
theorem selectedEnvOf_beq_empty (body : List (String × String)) :
    (selectedEnvOf body == "") = false := by
  unfold selectedEnvOf
  cases he : (bodyGet body "environment" == "") with
  | true => simp [he]
  | false => simp [he]

/-- When no valid token is cached under the looked-up key and the exchange
fails, getAccessToken reports an error. -/
theorem getAccessToken_fail_of_noValidToken (tc : List (String × TokenSlot))
    (env : String) (now : Int)
    (hne : (env == "") = false)
    (htok : noValidToken tc (jsToUpper env) now = true) :
    ∃ e tc2 calls,
      getAccessToken tc env now ExchangeResult.fail = (Except.error e, tc2, calls) := by
  cases hl : tc.lookup (jsToUpper env) with
  | none =>
    exact ⟨JsError.typeError, tc, 0, by simp [getAccessToken, hne, hl]⟩
  | some slot =>
    have hv : slotValid slot now = false := by
      unfold noValidToken at htok
      rw [hl] at htok
      simpa using htok
    refine ⟨JsError.jsError (tokenErrorMessage (jsToUpper env)),
      assocSet tc (jsToUpper env) slot, 1, ?_⟩
    simp [getAccessToken, hne, hl, getAccessTokenSlot, hv]

/-- The handler run when the token step reports an error: a 500 with the
response cache untouched and no page request issued. -/
theorem handleOrders_token_error (st : ServerState) (body : List (String × String))
    (now : Int) (exchange : ExchangeResult) (upstream : Nat → Option PageResponse)
    (fuel : Nat)
    (hc : (bodyGet body "startDate" == "" || bodyGet body "endDate" == "") = false)
    (hmiss : st.orderCache.lookup (cacheKeyOf body) = none)
    (e : JsError) (tc2 : List (String × TokenSlot)) (calls : Nat)
    (hgot : getAccessToken st.tokenCache (selectedEnvOf body) now exchange
      = (Except.error e, tc2, calls)) :
    handleOrders st body now exchange upstream fuel
      = some { response := HandlerResponse.serverError,
               state := { tokenCache := tc2, orderCache := st.orderCache },
               tokenCalls := calls, pageCalls := 0 } := by
  simp [handleOrders, hc, hmiss, hgot]

/-- The handler run when the token step succeeds but a page request throws:
a 500 with the response cache untouched. -/
theorem handleOrders_fetch_error (st : ServerState) (body : List (String × String))
    (now : Int) (exchange : ExchangeResult) (upstream : Nat → Option PageResponse)
    (fuel : Nat)
    (hc : (bodyGet body "startDate" == "" || bodyGet body "endDate" == "") = false)
    (hmiss : st.orderCache.lookup (cacheKeyOf body) = none)
    (tok : String) (tc2 : List (String × TokenSlot)) (calls : Nat)
    (hgot : getAccessToken st.tokenCache (selectedEnvOf body) now exchange
      = (Except.ok tok, tc2, calls))
    (n : Nat)
    (hfl : fetchLoop upstream fuel [] 0 = (some (Except.error ()), n)) :
    handleOrders st body now exchange upstream fuel
      = some { response := HandlerResponse.serverError,
               state := { tokenCache := tc2, orderCache := st.orderCache },
               tokenCalls := calls, pageCalls := n } := by
  simp [handleOrders, hc, hmiss, hgot, hfl]

/-- C4: a missing date bound answers 400 before any token or page request
and without touching any state; every 500 run leaves the response cache
unchanged; a failing credential exchange with no valid cached token yields
a 500 with zero page requests; a failing page request yields a 500, the
partially accumulated records being discarded rather than cached. -/
theorem c4_orders_validation_and_error_paths :
    (∀ (st : ServerState) (body : List (String × String)) (now : Int)
        (exchange : ExchangeResult) (upstream : Nat → Option PageResponse) (fuel : Nat),
      bodyGet body "startDate" = "" ∨ bodyGet body "endDate" = "" →
      handleOrders st body now exchange upstream fuel
        = some { response := HandlerResponse.badRequest, state := st,
                 tokenCalls := 0, pageCalls := 0 })
    ∧ (∀ (st : ServerState) (body : List (String × String)) (now : Int)
        (exchange : ExchangeResult) (upstream : Nat → Option PageResponse)
        (fuel : Nat) (r : HandlerResult),
        handleOrders st body now exchange upstream fuel = some r →
        r.response = HandlerResponse.serverError →
        r.state.orderCache = st.orderCache)
    ∧ (∀ (st : ServerState) (body : List (String × String)) (now : Int)
        (upstream : Nat → Option PageResponse) (fuel : Nat),
        ¬(bodyGet body "startDate" = "") → ¬(bodyGet body "endDate" = "") →
        st.orderCache.lookup (cacheKeyOf body) = none →
        noValidToken st.tokenCache (envKeyOf body) now = true →
        ∃ r, handleOrders st body now ExchangeResult.fail upstream fuel = some r
          ∧ r.response = HandlerResponse.serverError
          ∧ r.state.orderCache = st.orderCache ∧ r.pageCalls = 0)
    ∧ (∀ (st : ServerState) (body : List (String × String)) (now : Int)
        (exchange : ExchangeResult) (upstream : Nat → Option PageResponse)
        (fuel n : Nat),
        ¬(bodyGet body "startDate" = "") → ¬(bodyGet body "endDate" = "") →
        st.orderCache.lookup (cacheKeyOf body) = none →
        fetchLoop upstream fuel [] 0 = (some (Except.error ()), n) →
        ∃ r, handleOrders st body now exchange upstream fuel = some r
          ∧ r.response = HandlerResponse.serverError
          ∧ r.state.orderCache = st.orderCache) := by
  refine ⟨?_, ?_, ?_, ?_⟩
  · intro st body now exchange upstream fuel h
    have hc : (bodyGet body "startDate" == "" || bodyGet body "endDate" == "") = true := by
      rcases h with h | h <;> simp [h]
    simp [handleOrders, hc]
  · intro st body now exchange upstream fuel r h hr
    unfold handleOrders at h
    split at h
    · injection h with h2
      subst h2
      exact absurd hr (by simp)
    · split at h
      · injection h with h2
        subst h2
        exact absurd hr (by simp)
      · split at h
        · injection h with h2
          subst h2
          rfl
        · split at h
          · exact Option.noConfusion h
          · injection h with h2
            subst h2
            rfl
          · injection h with h2
            subst h2
            exact absurd hr (by simp)
  · intro st body now upstream fuel h1 h2 hmiss htok
    have hc : (bodyGet body "startDate" == "" || bodyGet body "endDate" == "") = false := by
      simp [beq_eq_false_iff_ne.mpr h1, beq_eq_false_iff_ne.mpr h2]
    obtain ⟨e, tc2, calls, hgot⟩ := getAccessToken_fail_of_noValidToken st.tokenCache
      (selectedEnvOf body) now (selectedEnvOf_beq_empty body) htok
    exact ⟨_, handleOrders_token_error st body now ExchangeResult.fail upstream fuel
      hc hmiss e tc2 calls hgot, rfl, rfl, rfl⟩
  · intro st body now exchange upstream fuel n h1 h2 hmiss hfl
    have hc : (bodyGet body "startDate" == "" || bodyGet body "endDate" == "") = false := by
      simp [beq_eq_false_iff_ne.mpr h1, beq_eq_false_iff_ne.mpr h2]
    rcases hga : getAccessToken st.tokenCache (selectedEnvOf body) now exchange
      with ⟨res, tc2, calls⟩
    cases res with
    | error e =>
      exact ⟨_, handleOrders_token_error st body now exchange upstream fuel
        hc hmiss e tc2 calls hga, rfl, rfl⟩
    | ok tok =>
      exact ⟨_, handleOrders_fetch_error st body now exchange upstream fuel
        hc hmiss tok tc2 calls hga n hfl, rfl, rfl⟩

/-- C4 witness: a body with a missing start date, a failing credential
exchange and a failing first page on concrete states. -/
theorem c4_orders_validation_and_error_paths_witness :
    handleOrders { tokenCache := tokenCacheStart, orderCache := [] } [("endDate", "x")] 0
        ExchangeResult.fail (fun _ => none) 0
      = some { response := HandlerResponse.badRequest,
               state := { tokenCache := tokenCacheStart, orderCache := [] },
               tokenCalls := 0, pageCalls := 0 }
    ∧ ({ response := HandlerResponse.serverError,
         state := { tokenCache := tokenCacheStart, orderCache := [] },
         tokenCalls := 1, pageCalls := 0 } : HandlerResult).state.orderCache
        = ([] : List (String × List OrderHit))
    ∧ (∃ r, handleOrders { tokenCache := tokenCacheStart, orderCache := [] }
          [("startDate", "2025-01-01"), ("endDate", "2025-01-31")] 0
          ExchangeResult.fail (fun _ => none) 1 = some r
        ∧ r.response = HandlerResponse.serverError
        ∧ r.state.orderCache = ([] : List (String × List OrderHit)) ∧ r.pageCalls = 0)
    ∧ (∃ r, handleOrders { tokenCache := tokenCacheStart, orderCache := [] }
          [("startDate", "2025-01-01"), ("endDate", "2025-01-31")] 0
          (ExchangeResult.ok "fresh" 1800) (fun _ => none) 1 = some r
        ∧ r.response = HandlerResponse.serverError
        ∧ r.state.orderCache = ([] : List (String × List OrderHit))) :=
  ⟨c4_orders_validation_and_error_paths.1 { tokenCache := tokenCacheStart, orderCache := [] }
      [("endDate", "x")] 0 ExchangeResult.fail (fun _ => none) 0 (Or.inl rfl),
   c4_orders_validation_and_error_paths.2.1
      { tokenCache := tokenCacheStart, orderCache := [] }
      [("startDate", "2025-01-01"), ("endDate", "2025-01-31")] 0
      ExchangeResult.fail (fun _ => none) 1 _ (by rfl) rfl,
   c4_orders_validation_and_error_paths.2.2.1
      { tokenCache := tokenCacheStart, orderCache := [] }
      [("startDate", "2025-01-01"), ("endDate", "2025-01-31")] 0
      (fun _ => none) 1 (by decide) (by decide) rfl (by decide),
   c4_orders_validation_and_error_paths.2.2.2
      { tokenCache := tokenCacheStart, orderCache := [] }
      [("startDate", "2025-01-01"), ("endDate", "2025-01-31")] 0
      (ExchangeResult.ok "fresh" 1800) (fun _ => none) 1 1
      (by decide) (by decide) rfl rfl⟩

/-- C10 counterexample: the empty environment name uppercases to neither
DEV nor PRD, yet getAccessToken does not raise a TypeError there — the
falsy name is first defaulted to DEV, and a failing exchange then raises
the acquisition error after one network attempt. -/
theorem c10_unknown_environment_counterexample :
    ¬(jsToUpper "" = "DEV") ∧ ¬(jsToUpper "" = "PRD")
    ∧ getAccessToken tokenCacheStart "" 0 ExchangeResult.fail
        = (Except.error (JsError.jsError (tokenErrorMessage "DEV")), tokenCacheStart, 1) :=
  ⟨by decide, by decide, rfl⟩

/-- C10 amended: for every non-empty environment name whose uppercased form
is neither DEV nor PRD, getAccessToken raises a TypeError by reading the
missing cache slot, with no credential exchange and no acquisition error;
through the orders handler this surfaces as a 500. -/
theorem c10_unknown_environment_type_error
    (environment : String) (now : Int) (exchange : ExchangeResult)
    (tc : List (String × TokenSlot))
    (h0 : ¬(environment = ""))
    (h1 : ¬(jsToUpper environment = "DEV")) (h2 : ¬(jsToUpper environment = "PRD"))
    (hdom : ∀ p ∈ tc, p.1 = "DEV" ∨ p.1 = "PRD") :
    getAccessToken tc environment now exchange = (Except.error JsError.typeError, tc, 0)
    ∧ ∀ (sd ed : String) (upstream : Nat → Option PageResponse) (fuel : Nat),
        ¬(sd = "") → ¬(ed = "") →
        handleOrders { tokenCache := tc, orderCache := [] }
            [("startDate", sd), ("endDate", ed), ("environment", environment)]
            now exchange upstream fuel
          = some { response := HandlerResponse.serverError,
                   state := { tokenCache := tc, orderCache := [] },
                   tokenCalls := 0, pageCalls := 0 } := by
  have hbe : (environment == "") = false := beq_eq_false_iff_ne.mpr h0
  have hlk : tc.lookup (jsToUpper environment) = none := by
    rw [lookup_none_iff]
    intro p hp he
    rcases hdom p hp with hd | hd
    · exact h1 (hd ▸ he)
    · exact h2 (hd ▸ he)
  have hget : getAccessToken tc environment now exchange
      = (Except.error JsError.typeError, tc, 0) := by
    simp [getAccessToken, hbe, hlk]
  refine ⟨hget, ?_⟩
  intro sd ed upstream fuel hsd hed
  have hbenv : bodyGet [("startDate", sd), ("endDate", ed), ("environment", environment)]
      "environment" = environment := rfl
  have hsel : selectedEnvOf [("startDate", sd), ("endDate", ed), ("environment", environment)]
      = environment := by
    unfold selectedEnvOf
    rw [hbenv, hbe]
    simp
  have hc : (bodyGet [("startDate", sd), ("endDate", ed), ("environment", environment)]
        "startDate" == ""
      || bodyGet [("startDate", sd), ("endDate", ed), ("environment", environment)]
        "endDate" == "") = false := by
    rw [show bodyGet [("startDate", sd), ("endDate", ed), ("environment", environment)]
        "startDate" = sd from rfl,
      show bodyGet [("startDate", sd), ("endDate", ed), ("environment", environment)]
        "endDate" = ed from rfl]
    simp [beq_eq_false_iff_ne.mpr hsd, beq_eq_false_iff_ne.mpr hed]
  have hgot : getAccessToken tc
      (selectedEnvOf [("startDate", sd), ("endDate", ed), ("environment", environment)])
      now exchange = (Except.error JsError.typeError, tc, 0) := by
    rw [hsel]
    exact hget
  exact handleOrders_token_error { tokenCache := tc, orderCache := [] }
    [("startDate", sd), ("endDate", ed), ("environment", environment)] now exchange
    upstream fuel hc rfl JsError.typeError tc 0 hgot

/-- C10 witness: a concrete unknown environment name on the initial token
cache. -/
theorem c10_unknown_environment_type_error_witness :
    getAccessToken tokenCacheStart "stage" 0 ExchangeResult.fail
      = (Except.error JsError.typeError, tokenCacheStart, 0)
    ∧ handleOrders { tokenCache := tokenCacheStart, orderCache := [] }
        [("startDate", "2025-01-01"), ("endDate", "2025-01-31"), ("environment", "stage")]
        0 ExchangeResult.fail (fun _ => none) 0
      = some { response := HandlerResponse.serverError,
               state := { tokenCache := tokenCacheStart, orderCache := [] },
               tokenCalls := 0, pageCalls := 0 } :=
  ⟨(c10_unknown_environment_type_error "stage" 0 ExchangeResult.fail tokenCacheStart
      (by decide) (by decide) (by decide) (by decide)).1,
   (c10_unknown_environment_type_error "stage" 0 ExchangeResult.fail tokenCacheStart
      (by decide) (by decide) (by decide) (by decide)).2
      "2025-01-01" "2025-01-31" (fun _ => none) 0 (by decide) (by decide)⟩

end SalesDashboard
